import Mathlib

/-!
Verification of the SPARC Phase 4 service-account automation pipeline.

Shallow embedding of the Python modules `sparc_phase4_cli_integration.py`,
`sparc_phase4_decision_engine.py`, `sparc_phase4_integration.py`,
`sparc_phase4_browser_automation.py` and `sparc_phase4_session_manager.py`.
Machine strings are `String`, regex scans are explicit recursions over
`List Char`, exceptions are modelled by fault flags in explicit environment
records, and the file system touched by the persister is explicit state.
-/

/-! ## Shared string helpers (Python `str` operations used by the modules) -/

/-- Python whitespace characters matched by `\s` on ASCII input. -/
def isPySpace (c : Char) : Bool :=
  c == ' ' || c == '\t' || c == '\n' || c == '\r' || c == '\x0b' || c == '\x0c'

/-- `prefixOf p s` : `p` is a prefix of `s` (Python `str.startswith`). -/
def prefixOf : List Char → List Char → Bool
  | [], _ => true
  | _ :: _, [] => false
  | a :: as, b :: bs => a == b && prefixOf as bs

/-- `infixOf p s` : `p` occurs contiguously in `s` (Python `in` on strings). -/
def infixOf (p : List Char) : List Char → Bool
  | [] => p.isEmpty
  | c :: rest => prefixOf p (c :: rest) || infixOf p rest

/-- Substring test on `String`. -/
def strContains (s pat : String) : Bool :=
  infixOf pat.data s.data

/-- Python `str.lower()` (ASCII). -/
def pyLower (s : String) : String :=
  String.mk (s.data.map Char.toLower)

/-- Python `str.strip()`: drop leading and trailing whitespace. -/
def pyStrip (s : String) : String :=
  String.mk (((s.data.dropWhile isPySpace).reverse.dropWhile isPySpace).reverse)

/-- Split at newline characters, the line structure used by `re.MULTILINE`. -/
def splitLines : List Char → List (List Char)
  | [] => [[]]
  | c :: rest =>
    let r := splitLines rest
    if c == '\n' then [] :: r
    else
      match r with
      | [] => [[c]]
      | l :: ls => (c :: l) :: ls

/-- Join lines back with newline characters. -/
def joinLines : List (List Char) → List Char
  | [] => []
  | [l] => l
  | l :: ls => l ++ '\n' :: joinLines ls

namespace CLIIntegration

/-! ## `sparc_phase4_cli_integration.py` -/

/-- `TOKEN_PREFIX = "ops_"`. -/
def TOKEN_PREFIX : String := "ops_"

/-- `MIN_TOKEN_LENGTH = 100`. -/
def MIN_TOKEN_LENGTH : Nat := 100

/-- Membership in `ALLOWED_CHARS` (A-Z, a-z, 0-9, underscore, hyphen). -/
def allowedChar (c : Char) : Bool :=
  ('A' ≤ c && c ≤ 'Z') || ('a' ≤ c && c ≤ 'z') || ('0' ≤ c && c ≤ '9') ||
    c == '_' || c == '-'

/-- `token.startswith("ops_")`. -/
def hasOpsPrefix (cs : List Char) : Bool :=
  prefixOf TOKEN_PREFIX.data cs

/-- The enumerate loop of check 3: first character outside `ALLOWED_CHARS`
with its index, `none` when every character is allowed. -/
def firstInvalid : List Char → Nat → Option (Nat × Char)
  | [], _ => none
  | c :: cs, i => if allowedChar c then firstInvalid cs (i + 1) else some (i, c)

/-- `TOKEN_PATTERN = re.compile(r'^ops_[A-Za-z0-9_-]{100,}$')` as a full match:
the prefix followed by at least `MIN_TOKEN_LENGTH` allowed characters. -/
def patternMatch : List Char → Bool
  | 'o' :: 'p' :: 's' :: '_' :: rest =>
    rest.all allowedChar && decide (MIN_TOKEN_LENGTH ≤ rest.length)
  | _ => false

/-- Result dataclass `TokenValidation`. -/
structure TokenValidation where
  is_valid : Bool
  errors : List String
  prefix_ok : Bool
  length_ok : Bool
  charset_ok : Bool
  pattern_match : Bool
deriving DecidableEq, Repr

def prefixErr : String := "Token must start with 'ops_'"

def lengthErr (n : Nat) : String :=
  "Token too short: " ++ toString n ++ " < " ++ toString MIN_TOKEN_LENGTH

def charsetErr (i : Nat) (c : Char) : String :=
  "Invalid character '" ++ String.mk [c] ++ "' at position " ++ toString i

def emptyErr : String := "Token is empty or None"

def patternErr : String := "Token does not match expected pattern"

/-- Check 3 verdict. -/
def charsetOk (cs : List Char) : Bool :=
  if cs.isEmpty then false else (firstInvalid cs 0).isNone

/-- Errors contributed by check 3. -/
def charsetErrs (cs : List Char) : List String :=
  if cs.isEmpty then [emptyErr]
  else
    match firstInvalid cs 0 with
    | none => []
    | some (i, c) => [charsetErr i c]

/-- `validate_token_format(token)`: the four checks in source order, errors
accumulated per check, the pattern error added only when no other check
reported one. -/
def validate_token_format (token : String) : TokenValidation :=
  let cs := token.data
  let nonempty := !cs.isEmpty
  let prefix_ok := nonempty && hasOpsPrefix cs
  let length_ok := nonempty && decide (MIN_TOKEN_LENGTH ≤ cs.length)
  let charset_ok := charsetOk cs
  let pattern_match := nonempty && patternMatch cs
  let errs :=
    (if prefix_ok then [] else [prefixErr]) ++
      (if length_ok then [] else [lengthErr cs.length]) ++ charsetErrs cs
  let errs := if !pattern_match && errs.isEmpty then errs ++ [patternErr] else errs
  { is_valid := prefix_ok && length_ok && charset_ok && pattern_match
    errors := errs
    prefix_ok := prefix_ok
    length_ok := length_ok
    charset_ok := charset_ok
    pattern_match := pattern_match }

/-- The leftmost-match scan of `re.search(r'(ops_[A-Za-z0-9_-]{100,})', s)`:
at each position, if the literal prefix matches and the greedy run of allowed
characters after it reaches 100, that match is returned, else the scan moves
one character right. -/
def searchToken : List Char → Option (List Char)
  | [] => none
  | c :: rest =>
    if hasOpsPrefix (c :: rest) then
      let run := (rest.drop 3).takeWhile allowedChar
      if MIN_TOKEN_LENGTH ≤ run.length then some (c :: (rest.take 3 ++ run))
      else searchToken rest
    else searchToken rest

/-- `extract_token_from_output(output)`: reject empty output, search the
whitespace-stripped text first, fall back to the raw text. -/
def extract_token_from_output (output : String) : Option String :=
  if output = "" then none
  else
    match searchToken (output.data.filter fun c => !isPySpace c) with
    | some t => some (String.mk t)
    | none =>
      match searchToken output.data with
      | some t => some (String.mk t)
      | none => none

/-! ### `save_token_to_env`

The persister touches the file system; we model the profile file, the backup
file and every exception the code catches by an explicit environment of fault
flags, and record the sequence of file writes so ordering facts (backup
before write) are statable. -/

/-- Result dataclass `PersistResult`. -/
structure PersistResult where
  success : Bool
  backup_path : Option String := none
  env_var_name : String := "OP_SERVICE_ACCOUNT_TOKEN"
  error_message : Option String := none
  verified : Bool := false
deriving DecidableEq, Repr

/-- File operations performed on the profile / backup files, in order. -/
inductive FileOp where
  | writeBackup (content : String)
  | touchZshrc
  | writeZshrc (content : String)
  | failedWriteZshrc
deriving DecidableEq, Repr

/-- Fault-injection environment for one `save_token_to_env` call: the initial
profile file content (`none` = file absent), the backup timestamp, and one
flag per `try` block of the source naming whether that operation raises. -/
structure SaveEnv where
  initZshrc : Option String
  timestamp : String
  backupWriteFails : Bool
  readFails : Bool
  writeFails : Bool
  writeErr : String
  partialContent : String
  restoreFails : Bool
  readBackFails : Bool
  chmodFails : Bool
deriving DecidableEq, Repr

/-- `os.path.expanduser("~/.zshrc")` after symlink resolution. -/
def zshrcPath : String := "/Users/user/.zshrc"

/-- Final state of one `save_token_to_env` call. -/
structure SaveOutcome where
  result : PersistResult
  zshrc : Option String
  backup : Option String
  ops : List FileOp
deriving DecidableEq, Repr

/-- `^export {env_var_name}=` — the line prefix matched by the MULTILINE
export pattern. -/
def exportPrefix (v : String) : String := "export " ++ v ++ "="

/-- `export {env_var_name}="{token}"`. -/
def exportLine (v tok : String) : String :=
  "export " ++ v ++ "=\"" ++ tok ++ "\""

/-- `\n# 1Password Service Account Token - Created {timestamp}\n`. -/
def commentLine (ts : String) : String :=
  "\n# 1Password Service Account Token - Created " ++ ts ++ "\n"

/-- The content update step: `re.sub` of every line matching the export
pattern when one exists, else append (with newline fix-up, dated comment and
the new export line). -/
def updatedContent (content v tok ts : String) : String :=
  let ls := splitLines content.data
  if ls.any (fun l => prefixOf (exportPrefix v).data l) then
    String.mk (joinLines (ls.map fun l =>
      if prefixOf (exportPrefix v).data l then (exportLine v tok).data else l))
  else
    (if content.data.getLast? == some '\n' then content else content ++ "\n") ++
      commentLine ts ++ exportLine v tok ++ "\n"

/-- The tail of `save_token_to_env` after the backup phase: read the profile,
update the export line, write, restore from backup on a failed write, verify
by read-back, chmod (failure swallowed). -/
def saveAfterBackup (token v : String) (env : SaveEnv) (bp : Option String)
    (backupContent : Option String) (ops0 : List FileOp)
    (zshrcNow : Option String) : SaveOutcome :=
  if env.readFails then
    { result := { success := false, backup_path := bp,
                  error_message := some ("Failed to read .zshrc: " ++ "read error") }
      zshrc := zshrcNow, backup := backupContent, ops := ops0 }
  else
    let content := zshrcNow.getD ""
    let newContent := updatedContent content v token env.timestamp
    if env.writeFails then
      match bp, backupContent with
      | some _, some bc =>
        if env.restoreFails then
          { result := { success := false, backup_path := bp,
                        error_message := some ("Failed to write .zshrc: " ++ env.writeErr) }
            zshrc := some env.partialContent, backup := backupContent
            ops := ops0 ++ [FileOp.failedWriteZshrc] }
        else
          { result := { success := false, backup_path := bp,
                        error_message := some ("Failed to write .zshrc: " ++ env.writeErr) }
            zshrc := some bc, backup := backupContent
            ops := ops0 ++ [FileOp.failedWriteZshrc, FileOp.writeZshrc bc] }
      | _, _ =>
          { result := { success := false, backup_path := bp,
                        error_message := some ("Failed to write .zshrc: " ++ env.writeErr) }
            zshrc := some env.partialContent, backup := backupContent
            ops := ops0 ++ [FileOp.failedWriteZshrc] }
    else
      let verified := !env.readBackFails && strContains newContent token
      { result := { success := true, backup_path := bp, env_var_name := v
                    verified := verified }
        zshrc := some newContent, backup := backupContent
        ops := ops0 ++ [FileOp.writeZshrc newContent] }

/-- `save_token_to_env(token, env_var_name)`: validate, back up (or create a
fresh profile file), then `saveAfterBackup`. -/
def save_token_to_env (token v : String) (env : SaveEnv) : SaveOutcome :=
  let validation := validate_token_format token
  if !validation.is_valid then
    { result := { success := false
                  error_message :=
                    some ("Invalid token format: " ++
                      String.intercalate ", " validation.errors) }
      zshrc := env.initZshrc, backup := none, ops := [] }
  else
    let backupPath := zshrcPath ++ ".backup." ++ env.timestamp
    match env.initZshrc with
    | some content =>
      if env.backupWriteFails then
        { result := { success := false
                      error_message := some ("I/O error: " ++ "backup write failed") }
          zshrc := env.initZshrc, backup := none, ops := [] }
      else
        saveAfterBackup token v env (some backupPath) (some content)
          [FileOp.writeBackup content] (some content)
    | none =>
        saveAfterBackup token v env none none [FileOp.touchZshrc] (some "")

/-- Does a file operation write the backup file? -/
def FileOp.isBackupWrite : FileOp → Bool
  | .writeBackup _ => true
  | _ => false

/-! ### Concrete inputs used by witnesses and counterexamples -/

/-- `"ops_" + "a"*100` — the module's own "valid token (minimum length)"
test vector (total length 104). -/
def tokenMin : String := String.mk ('o' :: 'p' :: 's' :: '_' :: List.replicate 100 'a')

/-- A token of total length 100: prefix, 100-char total length and charset
all hold, yet the full pattern requires 100 characters after the prefix. -/
def tokenLen100 : String := String.mk ('o' :: 'p' :: 's' :: '_' :: List.replicate 96 'a')

/-- `"ops_" + "a"*50` — the spec's length-failure example (length 54). -/
def tokenLen54 : String := String.mk ('o' :: 'p' :: 's' :: '_' :: List.replicate 50 'a')

/-- An environment where the profile file does not exist and no operation
fails. -/
def envNoFile : SaveEnv :=
  { initZshrc := none, timestamp := "20260101_000000"
    backupWriteFails := false, readFails := false, writeFails := false
    writeErr := "", partialContent := "", restoreFails := false
    readBackFails := false, chmodFails := false }

/-- An environment with an existing profile file and no failing operation. -/
def envExisting : SaveEnv :=
  { initZshrc := some "# my zshrc\n", timestamp := "20260101_000000"
    backupWriteFails := false, readFails := false, writeFails := false
    writeErr := "", partialContent := "", restoreFails := false
    readBackFails := false, chmodFails := false }

/-- An existing profile file whose content write raises (restore succeeds). -/
def envWriteFails : SaveEnv :=
  { envExisting with writeFails := true, writeErr := "disk full"
                     partialContent := "PARTIAL" }

/-- An existing profile file where the read-back verification and the chmod
both raise. -/
def envVerifyChmodFail : SaveEnv :=
  { envExisting with readBackFails := true, chmodFails := true }

end CLIIntegration

namespace DecisionEngine

/-! ## `sparc_phase4_decision_engine.py`

The engine is driven through `asyncio` but every `await` in it is either
`asyncio.sleep(0)` or a call into another pure helper, so the decision logic
is embedded as pure functions.  Python dict/`Any` values reaching
`evaluate_result` are modelled by `PyVal`; exceptions by `PyError`
(class flags + `str(error)` text); float scores by `ℚ`. -/

inductive ActionType where
  | CLICK | FILL | NAVIGATE | EXTRACT | RETRY
deriving DecidableEq, Repr

/-- Dataclass `RetryStrategy`. -/
structure RetryStrategy where
  name : String
  max_attempts : Nat
  base_delay_sec : ℚ := 1
  max_delay_sec : ℚ := 30
  backoff_factor : ℚ := 2
  jitter : ℚ := 0.2
  retryable : Bool := true
  reason : String := ""
deriving DecidableEq, Repr

/-- `RetryStrategy.should_retry(attempt)`. -/
def RetryStrategy.should_retry (s : RetryStrategy) (attempt : Nat) : Bool :=
  s.retryable && attempt < s.max_attempts

/-- A Python exception as `get_retry_strategy` observes it: its class
membership tests and its message text. -/
structure PyError where
  isTimeoutError : Bool
  isConnOrOSError : Bool
  text : String
deriving DecidableEq, Repr

/-- `get_retry_strategy(error)`: class checks first, then message substrings
in source order (timeout, captcha, invalid / not found / missing, generic). -/
def get_retry_strategy (error : PyError) : RetryStrategy :=
  if error.isTimeoutError then
    { name := "timeout", max_attempts := 3, base_delay_sec := 1,
      backoff_factor := 2, jitter := 0.3,
      reason := "Timeout while waiting for page or element" }
  else if error.isConnOrOSError then
    { name := "network", max_attempts := 5, base_delay_sec := 1.5,
      backoff_factor := 2, jitter := 0.2,
      reason := "Network or transport error" }
  else
    let error_text := pyLower error.text
    if strContains error_text "timeout" then
      { name := "timeout", max_attempts := 3, base_delay_sec := 1,
        backoff_factor := 2, jitter := 0.3,
        reason := "Timeout reported by error message" }
    else if strContains error_text "captcha" then
      { name := "captcha", max_attempts := 1, base_delay_sec := 5,
        backoff_factor := 1, jitter := 0,
        reason := "Captcha detected; allow manual resolution" }
    else if strContains error_text "invalid" || strContains error_text "not found"
        || strContains error_text "missing" then
      { name := "non_retryable", max_attempts := 0, retryable := false,
        reason := "Non-retryable input or selector error" }
    else
      { name := "generic", max_attempts := 2, base_delay_sec := 1,
        backoff_factor := 2, jitter := 0.2,
        reason := "Unhandled error; default retry strategy" }

/-- A scalar Python value inside a result dict. -/
inductive PyLeaf where
  | none
  | bool (b : Bool)
  | int (n : Int)
  | str (s : String)
deriving DecidableEq, Repr

/-- Python truthiness of a scalar. -/
def pyLeafTruthy : PyLeaf → Bool
  | .none => false
  | .bool b => b
  | .int n => n != 0
  | .str s => !s.isEmpty

/-- Python `str(...)` of a scalar. -/
def pyLeafStr : PyLeaf → String
  | .str s => s
  | .bool b => if b then "True" else "False"
  | .int n => toString n
  | .none => "None"

/-- Python values reaching `evaluate_result` (no attribute-bearing objects
appear in this repository's callers: None/bool/int/str, or a result dict
with scalar entries). -/
inductive PyVal where
  | none
  | bool (b : Bool)
  | int (n : Int)
  | str (s : String)
  | dict (entries : List (String × PyLeaf))
deriving DecidableEq, Repr

/-- `evaluate_result(result)`: None false, bool itself, dict by its
success / ok / status / error entries, anything else true.  (A dict without
those keys has no `ok`/`status` attribute either, hence true.) -/
def evaluate_result (result : PyVal) : Bool :=
  match result with
  | .none => false
  | .bool b => b
  | .dict entries =>
    match List.lookup "success" entries with
    | some v => pyLeafTruthy v
    | Option.none =>
      match List.lookup "ok" entries with
      | some v => pyLeafTruthy v
      | Option.none =>
        match List.lookup "status" entries with
        | some v =>
          let status := pyLower (pyLeafStr v)
          status == "ok" || status == "success" || status == "completed" ||
            status == "done" || status == "true"
        | Option.none =>
          match List.lookup "error" entries with
          | some _ => false
          | Option.none => true
  | _ => true

/-- A visible-element descriptor dict (`ty` stands for the "type" key). -/
structure Element where
  text : Option String := none
  label : Option String := none
  aria_label : Option String := none
  name : Option String := none
  placeholder : Option String := none
  value : Option String := none
  role : Option String := none
  tag : Option String := none
  ty : Option String := none
  selector : Option String := none
  clickable : Option Bool := none
  visible : Option Bool := none
deriving DecidableEq, Repr

/-- The `intent` dict keys the engine reads. -/
structure Intent where
  target_url : Option String := none
  extract : Option (List String) := none
  extract_selectors : Option (List String) := none
  form_data : Option (List (String × String)) := none
  inputs : Option (List (String × String)) := none
  query : Option String := none
  text : Option String := none
  value : Option String := none
  click_selector : Option String := none
  click_text : Option String := none
deriving DecidableEq, Repr

/-- The `metadata` dict keys the engine reads. -/
structure CtxMetadata where
  target_url : Option String := none
  extract : Option (List String) := none
  extract_selectors : Option (List String) := none
  form_data : Option (List (String × String)) := none
deriving DecidableEq, Repr

/-- Dataclass `DecisionContext` (history / decision_log are logging only and
are not part of the decision function). -/
structure DecisionContext where
  url : String := ""
  dom : String := ""
  visible_elements : List Element := []
  intent : Intent := {}
  errors : List String := []
  last_result : Option PyVal := none
  last_error : Option PyError := none
  retry_count : Nat := 0
  metadata : CtxMetadata := {}
deriving DecidableEq, Repr

/-- Truthiness filter on an optional string (Python `""` is falsy). -/
def truthyStr : Option String → Option String
  | some s => if s = "" then none else some s
  | none => none

/-- Truthiness filter on an optional list (Python `[]` is falsy). -/
def truthyList : Option (List String) → Option (List String)
  | some l => if l.isEmpty then none else some l
  | none => none

/-- Truthiness filter on an optional mapping (Python `{}` is falsy). -/
def truthyPairs : Option (List (String × String)) → Option (List (String × String))
  | some l => if l.isEmpty then none else some l
  | none => none

/-- Whitespace-run collapse used by `_normalize_text` (`re.sub(r"\s+", " ")`). -/
def collapseWsAux : Bool → List Char → List Char
  | _, [] => []
  | inSpace, c :: rest =>
    if isPySpace c then
      if inSpace then collapseWsAux true rest
      else ' ' :: collapseWsAux true rest
    else c :: collapseWsAux false rest

/-- `_normalize_text(text)`: lower, collapse whitespace, strip. -/
def normalize_text (text : String) : String :=
  if text = "" then ""
  else pyStrip (String.mk (collapseWsAux false (pyLower text).data))

/-- Python `str.split()` on an already-normalized string. -/
def wordsAux : List Char → List Char → List String
  | [], acc => if acc.isEmpty then [] else [String.mk acc.reverse]
  | c :: rest, acc =>
    if isPySpace c then
      if acc.isEmpty then wordsAux rest []
      else String.mk acc.reverse :: wordsAux rest []
    else wordsAux rest (c :: acc)

/-- `field_key.split()`. -/
def pySplitWs (s : String) : List String := wordsAux s.data []

/-- `_element_text(element)`: join the truthy text-like fields, normalize. -/
def element_text (el : Element) : String :=
  let parts := [el.text, el.label, el.aria_label, el.name, el.placeholder, el.value]
  let kept := (parts.filterMap id).filter fun s => s ≠ ""
  normalize_text (String.intercalate " " kept)

/-- `_is_clickable(element)`. -/
def is_clickable (el : Element) : Bool :=
  if el.visible == some false then false
  else
    let role := pyLower (el.role.getD "")
    let tag := pyLower (el.tag.getD "")
    if el.clickable == some true then true
    else if role == "button" || role == "link" || role == "menuitem" || role == "tab" then
      true
    else if tag == "button" || tag == "a" then true
    else false

/-- `_is_input(element)`. -/
def is_input (el : Element) : Bool :=
  if el.visible == some false then false
  else
    let role := pyLower (el.role.getD "")
    let tag := pyLower (el.tag.getD "")
    let input_type := pyLower (el.ty.getD "")
    if role == "textbox" || role == "combobox" || role == "searchbox" then true
    else if tag == "input" || tag == "textarea" || tag == "select" then true
    else if input_type == "text" || input_type == "email" || input_type == "password"
        || input_type == "search" || input_type == "tel" || input_type == "url" then
      true
    else false

/-- `_detect_login(dom_text, url, elements)`. -/
def detect_login (dom_text url : String) (elements : List Element) : Bool :=
  (["login", "signin", "sign-in"].any fun t => strContains (pyLower url) t) ||
    (["password", "sign in", "log in"].any fun t => strContains dom_text t) ||
    elements.any fun el =>
      ["sign in", "log in", "password"].any fun t => strContains (element_text el) t

/-- `_detect_captcha(dom_text)`. -/
def detect_captcha (dom_text : String) : Bool :=
  ["captcha", "recaptcha", "hcaptcha"].any fun t => strContains dom_text t

/-- `_extract_errors(dom_text, elements, errors)`. -/
def extract_errors (dom_text : String) (elements : List Element)
    (errors : List String) : List String :=
  let found :=
    if strContains dom_text "error" || strContains dom_text "failed" ||
        strContains dom_text "try again" then
      errors ++ ["dom_error_marker"]
    else errors
  found ++ elements.filterMap fun el =>
    let text := element_text el
    if ["error", "failed", "invalid", "try again"].any (fun t => strContains text t) then
      some text
    else none

/-- `_url_matches(current_url, target_url)`: exact, then prefix, then
substring. -/
def url_matches (current_url target_url : String) : Bool :=
  if current_url = "" || target_url = "" then false
  else if current_url == target_url then true
  else if prefixOf target_url.data current_url.data then true
  else strContains current_url target_url

/-- `_is_filled(element)` (element values are strings in this embedding). -/
def is_filled (el : Element) : Bool :=
  match el.value with
  | none => false
  | some s => pyStrip s ≠ ""

/-- `_score_match(element_text, field_key)`. -/
def score_match (etext field_key : String) : ℚ :=
  if etext = "" || field_key = "" then 0
  else
    let e := normalize_text etext
    let f := normalize_text field_key
    if e == f then 1
    else if strContains e f then 0.8
    else if strContains f e then 0.6
    else
      let tokens := pySplitWs f
      if !tokens.isEmpty && tokens.any (fun t => strContains e t) then 0.4 else 0

/-- `_select_best_input(inputs, form_data)`: best unfilled (element, key,
value, score), strict improvement only. -/
def select_best_input (inputs : List Element)
    (form_data : List (String × String)) :
    Option (Element × String × String × ℚ) :=
  inputs.foldl
    (fun best element =>
      if is_filled element then best
      else
        let etext := element_text element
        form_data.foldl
          (fun best kv =>
            let score := score_match etext kv.1
            if score ≤ 0 then best
            else
              match best with
              | none => some (element, kv.1, kv.2, score)
              | some b =>
                if score > b.2.2.2 then some (element, kv.1, kv.2, score) else best)
          best)
    none

/-- `_select_search_input(inputs)`. -/
def select_search_input (inputs : List Element) : Option Element :=
  inputs.findSome? fun element =>
    if is_filled element then none
    else if strContains (element_text element) "search" then some element
    else if pyLower (element.ty.getD "") == "search" then some element
    else none

/-- The fixed label priority list of `_select_best_click`. -/
def clickPriority : List String :=
  ["continue", "next", "submit", "save", "ok", "yes", "allow", "accept",
   "sign in", "log in", "login", "create", "start", "finish", "done"]

/-- `_select_best_click(clickables)`: rank labels, score falls linearly with
rank, strict improvement only. -/
def select_best_click (clickables : List Element) :
    Option (Element × String × ℚ) :=
  clickables.foldl
    (fun best element =>
      let text := element_text element
      clickPriority.enum.foldl
        (fun best rl =>
          if strContains text rl.2 then
            let score : ℚ := 1 - (rl.1 : ℚ) / (max 1 clickPriority.length : ℚ)
            match best with
            | none => some (element, rl.2, score)
            | some b => if score > b.2.2 then some (element, rl.2, score) else best
          else best)
        best)
    none

/-- `_match_click_text(clickables, target_text)`. -/
def match_click_text (clickables : List Element) (target_text : String) :
    Option Element :=
  let target := normalize_text target_text
  if target = "" then none
  else clickables.find? fun el => strContains (element_text el) target

/-- Per-action metadata entries (the free-form dict, structured). -/
structure ActionMeta where
  requires_manual : Bool := false
  errors : List String := []
  strategy : Option (Option RetryStrategy) := none
  targets : Option (List String) := none
  fieldKey : Option String := none
  match_score : Option ℚ := none
  matched_text : Option String := none
  label : Option String := none
  score : Option ℚ := none
deriving DecidableEq, Repr

/-- Dataclass `Action`. -/
structure Action where
  action_type : ActionType
  selector : Option String := none
  value : Option String := none
  url : Option String := none
  description : String := ""
  reason : String := ""
  confidence : ℚ := 0
  metadata : ActionMeta := {}
deriving DecidableEq, Repr

/-- Dataclass `PageAnalysis` with the signals dict flattened. -/
structure PageAnalysis where
  url : String
  dom_text : String
  visible_elements : List Element
  clickables : List Element
  inputs : List Element
  errors : List String
  has_error : Bool
  has_inputs : Bool
  has_clickables : Bool
  is_login : Bool
  has_captcha : Bool
deriving DecidableEq, Repr

/-- `DecisionEngine._analyze(context)` (`_coerce_elements` is the identity on
element records). -/
def analyze (context : DecisionContext) : PageAnalysis :=
  let url := context.url
  let dom_text := normalize_text context.dom
  let visible := context.visible_elements
  let clickables := visible.filter is_clickable
  let inputs := visible.filter is_input
  let errors := extract_errors dom_text visible context.errors
  { url := url, dom_text := dom_text, visible_elements := visible
    clickables := clickables, inputs := inputs, errors := errors
    has_error := !errors.isEmpty, has_inputs := !inputs.isEmpty
    has_clickables := !clickables.isEmpty
    is_login := detect_login dom_text url visible
    has_captcha := detect_captcha dom_text }

/-- `DecisionEngine._maybe_retry(context)`. -/
def maybe_retry (context : DecisionContext) : Option Action :=
  match context.last_result with
  | none => none
  | some result =>
    if evaluate_result result then none
    else
      match context.last_error.map get_retry_strategy with
      | some s =>
        if !s.retryable then none
        else if !s.should_retry context.retry_count then
          some { action_type := .RETRY, reason := "retry_exhausted"
                 description := "Retry limit reached for last error"
                 confidence := 0.2, metadata := { strategy := some (some s) } }
        else
          some { action_type := .RETRY, reason := "last_result_failed"
                 description := "Last action failed; retrying"
                 confidence := 0.5, metadata := { strategy := some (some s) } }
      | none =>
        some { action_type := .RETRY, reason := "last_result_failed"
               description := "Last action failed; retrying"
               confidence := 0.5, metadata := { strategy := some none } }

/-- `DecisionEngine._maybe_navigate(context, analysis)`. -/
def maybe_navigate (context : DecisionContext) (analysis : PageAnalysis) :
    Option Action :=
  match truthyStr context.intent.target_url <|> truthyStr context.metadata.target_url with
  | none => none
  | some target_url =>
    if url_matches analysis.url target_url then none
    else
      some { action_type := .NAVIGATE, url := some target_url
             reason := "target_url_mismatch"
             description := "Navigate to target URL: " ++ target_url
             confidence := 0.9 }

/-- `DecisionEngine._maybe_extract(context, analysis)`. -/
def maybe_extract (context : DecisionContext) (_analysis : PageAnalysis) :
    Option Action :=
  match truthyList context.intent.extract <|> truthyList context.intent.extract_selectors
      <|> truthyList context.metadata.extract
      <|> truthyList context.metadata.extract_selectors with
  | none => none
  | some targets =>
    some { action_type := .EXTRACT, reason := "extraction_requested"
           description := "Extraction targets provided in intent"
           confidence := 0.8, metadata := { targets := some targets } }

/-- The bare query / search-input tail of `_maybe_fill`. -/
def fillQuery (context : DecisionContext) (analysis : PageAnalysis) :
    Option Action :=
  match truthyStr context.intent.query <|> truthyStr context.intent.text
      <|> truthyStr context.intent.value with
  | none => none
  | some query_value =>
    match select_search_input analysis.inputs with
    | some search_input =>
      some { action_type := .FILL, selector := search_input.selector
             value := some query_value, reason := "fill_search_query"
             description := "Fill search input with query", confidence := 0.6 }
    | none => none

/-- `DecisionEngine._maybe_fill(context, analysis)`. -/
def maybe_fill (context : DecisionContext) (analysis : PageAnalysis) :
    Option Action :=
  if analysis.inputs.isEmpty then none
  else
    match truthyPairs context.intent.form_data <|> truthyPairs context.intent.inputs
        <|> truthyPairs context.metadata.form_data with
    | some fd =>
      match select_best_input analysis.inputs fd with
      | some (element, field_key, value, score) =>
        some { action_type := .FILL, selector := element.selector
               value := some value
               reason := "fill_field:" ++ field_key
               description := "Fill input based on form_data mapping"
               confidence := min 1 (0.4 + score * 0.6)
               metadata := { fieldKey := some field_key, match_score := some score } }
      | none => fillQuery context analysis
    | none => fillQuery context analysis

/-- The ranked-candidate tail of `_maybe_click`. -/
def clickCandidate (analysis : PageAnalysis) : Option Action :=
  match select_best_click analysis.clickables with
  | none => none
  | some (element, label, score) =>
    some { action_type := .CLICK, selector := element.selector
           reason := "click_candidate:" ++ label
           description := "Click highest-priority visible element"
           confidence := min 1 (0.3 + score * 0.7)
           metadata := { label := some label, score := some score } }

/-- `DecisionEngine._maybe_click(context, analysis)`. -/
def maybe_click (context : DecisionContext) (analysis : PageAnalysis) :
    Option Action :=
  if analysis.clickables.isEmpty then none
  else
    match truthyStr context.intent.click_selector with
    | some sel =>
      some { action_type := .CLICK, selector := some sel
             reason := "click_selector_override"
             description := "Click selector provided by intent", confidence := 0.8 }
    | none =>
      match truthyStr context.intent.click_text with
      | some t =>
        match match_click_text analysis.clickables t with
        | some m =>
          some { action_type := .CLICK, selector := m.selector
                 reason := "click_text_override"
                 description := "Click element matching intent text"
                 confidence := 0.7, metadata := { matched_text := some t } }
        | none => clickCandidate analysis
      | none => clickCandidate analysis

/-- `DecisionEngine._select_action(context, analysis)`: the priority chain. -/
def select_action (context : DecisionContext) (analysis : PageAnalysis) : Action :=
  match maybe_retry context with
  | some a => a
  | none =>
    if analysis.has_captcha then
      { action_type := .RETRY, reason := "captcha_detected"
        description := "Captcha detected; retrying after delay"
        confidence := 0.2, metadata := { requires_manual := true } }
    else if analysis.has_error then
      { action_type := .RETRY, reason := "page_error_detected"
        description := "Detected error markers in DOM or visible elements"
        confidence := 0.4, metadata := { errors := analysis.errors } }
    else
      match maybe_navigate context analysis with
      | some a => a
      | none =>
        match maybe_extract context analysis with
        | some a => a
        | none =>
          match maybe_fill context analysis with
          | some a => a
          | none =>
            match maybe_click context analysis with
            | some a => a
            | none =>
              { action_type := .RETRY, reason := "no_action_candidates"
                description := "No clear action candidates; retrying after delay"
                confidence := 0.1 }

/-- `DecisionEngine.decide(context)`: analyze then select (recording and
logging do not change the returned action). -/
def decide (context : DecisionContext) : Action :=
  select_action context (analyze context)

/-! ### Concrete contexts used by witnesses and counterexamples -/

/-- A context whose last action failed with a non-retryable error while the
intent still names an unreached target URL. -/
def nonRetryableCtx : DecisionContext :=
  { url := ""
    dom := ""
    visible_elements := []
    intent := { target_url := some "https://start.1password.com/developer-tools/" }
    errors := []
    last_result := some (.dict [("success", .bool false)])
    last_error := some ⟨false, false, "invalid selector: not found"⟩
    retry_count := 0
    metadata := {} }

/-- A context whose last action failed with a generic error after the retry
budget is spent. -/
def exhaustedCtx : DecisionContext :=
  { nonRetryableCtx with
      last_error := some ⟨false, false, "flaky widget glitch"⟩
      retry_count := 5 }

end DecisionEngine

namespace IntegrationOrch

/-! ## `sparc_phase4_integration.py` — `Orchestrator.orchestrate`

The environment is which workflow step raises an unrecoverable error (after
its retry wrapper gives up); `_transition_state` appends to
`state_transitions`, the `except` path transitions to ERROR and runs
`_cleanup` (which itself swallows all exceptions), the success path
transitions to CLEANUP, runs `_cleanup`, then transitions to COMPLETE. -/

inductive OrchestrationState where
  | INIT | CHECK_AUTH | SESSION_INIT | BROWSER_OPEN | NAVIGATE | FILL_FORM
  | WIZARD_NAV | EXTRACT_TOKEN | VALIDATE_TOKEN | SAVE_TOKEN | TEST_TOKEN
  | CLEANUP | COMPLETE | ERROR
deriving DecidableEq, Repr

/-- The states the workflow body transitions through, in source order. -/
def workflowSteps : List OrchestrationState :=
  [.CHECK_AUTH, .SESSION_INIT, .BROWSER_OPEN, .NAVIGATE, .FILL_FORM,
   .WIZARD_NAV, .EXTRACT_TOKEN, .VALIDATE_TOKEN, .SAVE_TOKEN, .TEST_TOKEN]

/-- Observable outcome of one `orchestrate` run: the logged transition list,
the final state, the success flag, and how many times `_cleanup` ran. -/
structure OrchTrace where
  state_transitions : List OrchestrationState
  final_state : OrchestrationState
  success : Bool
  cleanupRuns : Nat
deriving DecidableEq, Repr

/-- The run from a list of remaining steps: transition into each step, abort
to ERROR (running `_cleanup`) when the step raises, else finish with
CLEANUP / COMPLETE. -/
def orchestrateFrom (fails : OrchestrationState → Bool) :
    List OrchestrationState → List OrchestrationState → OrchTrace
  | [], trace =>
    { state_transitions := trace ++ [.CLEANUP, .COMPLETE]
      final_state := .COMPLETE, success := true, cleanupRuns := 1 }
  | s :: rest, trace =>
    if fails s then
      { state_transitions := trace ++ [s] ++ [.ERROR]
        final_state := .ERROR, success := false, cleanupRuns := 1 }
    else orchestrateFrom fails rest (trace ++ [s])

/-- `Orchestrator.orchestrate(...)` as the trace it produces. -/
def orchestrate (fails : OrchestrationState → Bool) : OrchTrace :=
  orchestrateFrom fails workflowSteps []

end IntegrationOrch

namespace BrowserAutomation

/-! ## `sparc_phase4_browser_automation.py` — token extraction

A page is modelled by what each fallback method observes: the text content
behind each CSS selector (`none` = selector not found / timeout), whether
each copy-button selector is present, the clipboard read result (`none` =
the read raised), and the body text (`none` = reading it raised).  Each
extraction function also returns the lines it prints. -/

structure BPage where
  cssText : String → Option String
  copyBtn : String → Bool
  clipboard : Option String
  bodyText : Option String
  screenshotFails : Bool

/-- `token_selectors` of `extract_token_via_css`. -/
def token_selectors : List String :=
  ["code:has-text('ops_')", "pre:has-text('ops_')",
   "[data-testid='service-account-token']", ".token-display code", ".token-value"]

/-- `copy_button_selectors` of `extract_token_via_clipboard`. -/
def copy_button_selectors : List String :=
  ["button:has-text('Copy')", "[data-testid='copy-token']", "[aria-label='Copy token']"]

/-- Full match of `r"^ops_[A-Za-z0-9_-]+$"`. -/
def bPatternMatch : List Char → Bool
  | 'o' :: 'p' :: 's' :: '_' :: rest =>
    !rest.isEmpty && rest.all CLIIntegration.allowedChar
  | _ => false

/-- The module-local `validate_token_format(token)` (note: total length 100,
unlike the CLI module's pattern). -/
def validate_token_format (token : String) : Bool :=
  if token = "" || token.data.length < 100 then false
  else if !prefixOf "ops_".data token.data then false
  else bPatternMatch token.data

/-- The selector loop of `extract_token_via_css`: first selector whose
stripped text validates wins; an invalid or missing text moves on. -/
def extract_token_via_cssAux (page : BPage) :
    List String → Option String × List String
  | [] => (none, [])
  | sel :: rest =>
    match page.cssText sel with
    | some txt =>
      let token := pyStrip txt
      if validate_token_format token then
        (some token, ["✓ Token extracted via CSS selector: " ++ sel])
      else extract_token_via_cssAux page rest
    | none => extract_token_via_cssAux page rest

/-- `extract_token_via_css(page)`. -/
def extract_token_via_css (page : BPage) : Option String × List String :=
  extract_token_via_cssAux page token_selectors

/-- The message of the `TimeoutError` that `wait_for_selector(...,
state="visible", timeout=2000)` raises when the selector never appears. -/
def waitTimeoutMsg : String := "Timeout 2000ms exceeded."

/-- The copy-button loop of `extract_token_via_clipboard`: an absent copy
button makes `wait_for_selector` raise, which the `except` logs per selector
before continuing; a present button is clicked and the clipboard read — a
validating read is accepted, an invalid read silently continues the loop,
and a raising read is logged and the loop continues. -/
def extract_token_via_clipboardAux (page : BPage) :
    List String → Option String × List String
  | [] => (none, [])
  | sel :: rest =>
    if page.copyBtn sel then
      match page.clipboard with
      | some txt =>
        if validate_token_format txt then (some txt, ["✓ Token extracted via clipboard"])
        else extract_token_via_clipboardAux page rest
      | none =>
        let r := extract_token_via_clipboardAux page rest
        (r.1, ("Clipboard extraction failed for " ++ sel ++ ": " ++ "clipboard read error")
          :: r.2)
    else
      let r := extract_token_via_clipboardAux page rest
      (r.1, ("Clipboard extraction failed for " ++ sel ++ ": " ++ waitTimeoutMsg) :: r.2)

/-- `extract_token_via_clipboard(page)`. -/
def extract_token_via_clipboard (page : BPage) : Option String × List String :=
  extract_token_via_clipboardAux page copy_button_selectors

/-- Leftmost match of `re.findall(r"ops_[A-Za-z0-9_-]{100,500}", text)[0]`:
the greedy run is capped at 500 and must reach 100. -/
def searchTokenCapped : List Char → Option (List Char)
  | [] => none
  | c :: rest =>
    if CLIIntegration.hasOpsPrefix (c :: rest) then
      let run := ((rest.drop 3).takeWhile CLIIntegration.allowedChar).take 500
      if 100 ≤ run.length then some (c :: (rest.take 3 ++ run))
      else searchTokenCapped rest
    else searchTokenCapped rest

/-- `extract_token_via_page_text(page)`. -/
def extract_token_via_page_text (page : BPage) : Option String × List String :=
  match page.bodyText with
  | none => (none, ["Page text extraction failed: " ++ "text content error"])
  | some txt =>
    match searchTokenCapped txt.data with
    | some t =>
      let token := String.mk t
      if validate_token_format token then
        (some token, ["✓ Token extracted via page text parsing"])
      else (none, [])
    | none => (none, [])

/-- `extract_token(page)`: the three implemented strategies in order (OCR is
not implemented in this version), first truthy result wins; when all fail, a
fixed failure line is printed and a debugging screenshot attempted — if the
screenshot call raises, the exception propagates (`Except.error`, carrying
what was printed), otherwise `None` is returned. -/
def extract_token (page : BPage) :
    Except (List String) (Option String × List String) :=
  let r1 := extract_token_via_css page
  match r1.1 with
  | some tok => .ok (some tok, r1.2)
  | none =>
    let r2 := extract_token_via_clipboard page
    match r2.1 with
    | some tok => .ok (some tok, r1.2 ++ r2.2)
    | none =>
      let r3 := extract_token_via_page_text page
      match r3.1 with
      | some tok => .ok (some tok, r1.2 ++ r2.2 ++ r3.2)
      | none =>
        let lg := r1.2 ++ r2.2 ++ r3.2 ++ ["ERROR: All token extraction methods failed"]
        if page.screenshotFails then .error lg else .ok (none, lg)

/-! ### Concrete pages used by witnesses and counterexamples -/

/-- A page where every extraction method comes up empty along the silent
paths of the source: CSS lookups find nothing (a silent `continue`), every
copy button is present but the clipboard holds no format-valid token (the
invalid-read branch prints nothing), the body text has no token, and the
debugging screenshot succeeds. -/
def failPage : BPage :=
  { cssText := fun _ => none
    copyBtn := fun _ => true
    clipboard := some "Service account created - copy your token now"
    bodyText := some "Service Account Created"
    screenshotFails := false }

/-- A page whose first CSS selector exposes a valid token with surrounding
whitespace. -/
def okPage : BPage :=
  { cssText := fun sel =>
      if sel = "code:has-text('ops_')" then
        some ("  " ++ CLIIntegration.tokenMin ++ "\n")
      else none
    copyBtn := fun _ => false
    clipboard := none
    bodyText := some ""
    screenshotFails := false }

end BrowserAutomation

namespace SessionMgr

/-! ## `sparc_phase4_session_manager.py` — `SessionManager.close_session`

A held resource is `some b` where `b` says whether its close call raises;
`none` is an already-released slot.  The single `try` of the source covers
all four close calls; the `except` clause nulls every reference. -/

structure SMState where
  page : Option Bool
  context : Option Bool
  browser : Option Bool
  playwright : Option Bool
deriving DecidableEq, Repr

inductive CloseStep where
  | page | context | browser | playwright
deriving DecidableEq, Repr

/-- All references nulled. -/
def cleared : SMState := ⟨none, none, none, none⟩

/-- `close_session(self)`: (state afterwards, close calls invoked in order,
whether an exception was caught by the `except`). -/
def close_session (s : SMState) : SMState × List CloseStep × Bool :=
  let a1 := if s.page.isSome then [CloseStep.page] else []
  if s.page = some true then (cleared, a1, true)
  else
    let a2 := a1 ++ if s.context.isSome then [CloseStep.context] else []
    if s.context = some true then (cleared, a2, true)
    else
      let a3 := a2 ++ if s.browser.isSome then [CloseStep.browser] else []
      if s.browser = some true then (cleared, a3, true)
      else
        let a4 := a3 ++ if s.playwright.isSome then [CloseStep.playwright] else []
        if s.playwright = some true then (cleared, a4, true)
        else (cleared, a4, false)

end SessionMgr

namespace CLIIntegration

/-! ### Lemmas about the validator and the extractor -/

theorem firstInvalid_eq_none_of_all (cs : List Char) (i : Nat)
    (h : cs.all allowedChar = true) : firstInvalid cs i = none := by
  induction cs generalizing i with
  | nil => rfl
  | cons c cs ih =>
    simp only [List.all_cons, Bool.and_eq_true] at h
    simp [firstInvalid, h.1, ih _ h.2]

theorem firstInvalid_isSome_of_not_all (cs : List Char) (i : Nat)
    (h : cs.all allowedChar = false) : (firstInvalid cs i).isSome = true := by
  induction cs generalizing i with
  | nil => simp at h
  | cons c cs ih =>
    simp only [List.all_cons, Bool.and_eq_false_iff] at h
    by_cases hc : allowedChar c = true
    · rcases h with h | h
      · simp [hc] at h
      · simp [firstInvalid, hc, ih _ h]
    · simp [firstInvalid, Bool.eq_false_iff.mpr hc]

theorem hasOpsPrefix_shape (cs : List Char) (h : hasOpsPrefix cs = true) :
    ∃ rest, cs = 'o' :: 'p' :: 's' :: '_' :: rest := by
  have hd : TOKEN_PREFIX.data = ['o', 'p', 's', '_'] := rfl
  unfold hasOpsPrefix at h
  rw [hd] at h
  rcases cs with _ | ⟨c1, _ | ⟨c2, _ | ⟨c3, _ | ⟨c4, rest⟩⟩⟩⟩ <;>
    simp [prefixOf] at h
  obtain ⟨h1, h2, h3, h4⟩ := h
  subst h1 h2 h3 h4
  exact ⟨rest, rfl⟩

theorem searchToken_some (l t : List Char) (h : searchToken l = some t) :
    ∃ run, t = 'o' :: 'p' :: 's' :: '_' :: run ∧
      run.all allowedChar = true ∧ MIN_TOKEN_LENGTH ≤ run.length := by
  induction l with
  | nil => simp [searchToken] at h
  | cons c rest ih =>
    rw [searchToken] at h
    by_cases hp : hasOpsPrefix (c :: rest) = true
    · obtain ⟨tail, heq⟩ := hasOpsPrefix_shape _ hp
      obtain ⟨hc, hrest⟩ : c = 'o' ∧ rest = 'p' :: 's' :: '_' :: tail := by
        have h1 := heq
        simp only [List.cons.injEq] at h1
        exact ⟨h1.1, h1.2⟩
      subst hc hrest
      simp only [hp, if_true] at h
      by_cases hlen : MIN_TOKEN_LENGTH ≤ (List.takeWhile allowedChar tail).length
      · simp only [hlen, if_true, List.drop, List.take, Option.some.injEq] at h
        refine ⟨List.takeWhile allowedChar tail, ?_, ?_, hlen⟩
        · simpa using h.symm
        · exact List.all_eq_true.mpr fun c hc => List.mem_takeWhile_imp hc
      · simp only [List.drop, hlen, if_false] at h
        exact ih h
    · rw [if_neg hp] at h
      exact ih h

theorem validate_token_format_of_shape (t : String) (run : List Char)
    (hsh : t.data = 'o' :: 'p' :: 's' :: '_' :: run)
    (hall : run.all allowedChar = true)
    (hlen : MIN_TOKEN_LENGTH ≤ run.length) :
    (validate_token_format t).is_valid = true ∧
      (validate_token_format t).errors = [] := by
  have hallcs : t.data.all allowedChar = true := by
    rw [hsh]
    simp only [List.all_cons, hall, Bool.and_true]
    decide
  have hpre : hasOpsPrefix t.data = true := by rw [hsh]; rfl
  have hne : t.data.isEmpty = false := by rw [hsh]; rfl
  have hfi : firstInvalid t.data 0 = none := firstInvalid_eq_none_of_all _ _ hallcs
  have hlencs : MIN_TOKEN_LENGTH ≤ t.data.length := by
    rw [hsh]; simp only [List.length_cons]; omega
  have hpat : patternMatch t.data = true := by
    rw [hsh]; simp only [patternMatch, hall, Bool.true_and, decide_eq_true_eq]; exact hlen
  have hlenS : MIN_TOKEN_LENGTH ≤ t.length := hlencs
  constructor <;>
    simp [validate_token_format, charsetOk, charsetErrs, hne, hpre, hfi, hpat, hlencs, hlenS]

/-- C10 helper: an extracted token has the `ops_` shape with a 100-long
allowed run. -/
theorem extract_token_from_output_shape (output t : String)
    (h : extract_token_from_output output = some t) :
    ∃ run, t.data = 'o' :: 'p' :: 's' :: '_' :: run ∧
      run.all allowedChar = true ∧ MIN_TOKEN_LENGTH ≤ run.length := by
  unfold extract_token_from_output at h
  by_cases hout : output = ""
  · simp [hout] at h
  · rw [if_neg hout] at h
    rcases hc : searchToken (output.data.filter fun c => !isPySpace c) with _ | tc
    · rw [hc] at h
      rcases hr : searchToken output.data with _ | tr
      · rw [hr] at h; exact absurd h (by simp)
      · rw [hr] at h
        obtain ⟨run, hsh, hall, hlen⟩ := searchToken_some _ _ hr
        refine ⟨run, ?_, hall, hlen⟩
        have : t = String.mk tr := by injection h with h2; exact h2.symm
        rw [this, hsh]
    · rw [hc] at h
      obtain ⟨run, hsh, hall, hlen⟩ := searchToken_some _ _ hc
      refine ⟨run, ?_, hall, hlen⟩
      have : t = String.mk tc := by injection h with h2; exact h2.symm
      rw [this, hsh]

end CLIIntegration

/-- C10: every token returned by `extract_token_from_output` consists of the
`ops_` prefix followed by at least 100 characters from the allowed set, and
passes `validate_token_format` with `is_valid = true` and no errors. -/
theorem extract_token_from_output_always_valid (output t : String)
    (h : CLIIntegration.extract_token_from_output output = some t) :
    (∃ run, t.data = 'o' :: 'p' :: 's' :: '_' :: run ∧
        run.all CLIIntegration.allowedChar = true ∧ 100 ≤ run.length) ∧
      (CLIIntegration.validate_token_format t).is_valid = true ∧
      (CLIIntegration.validate_token_format t).errors = [] := by
  obtain ⟨run, hsh, hall, hlen⟩ := CLIIntegration.extract_token_from_output_shape output t h
  have hv := CLIIntegration.validate_token_format_of_shape t run hsh hall hlen
  exact ⟨⟨run, hsh, hall, hlen⟩, hv.1, hv.2⟩

/-- C10 witness: a concrete output string with an embedded 104-character token. -/
theorem extract_token_from_output_always_valid_witness :
    (CLIIntegration.validate_token_format
        (String.mk ('o' :: 'p' :: 's' :: '_' :: List.replicate 100 'a'))).is_valid = true := by
  have h := extract_token_from_output_always_valid
    ("Your token: " ++ String.mk ('o' :: 'p' :: 's' :: '_' :: List.replicate 100 'a'))
    (String.mk ('o' :: 'p' :: 's' :: '_' :: List.replicate 100 'a')) (by decide)
  exact h.2.1

/-- C1 counterexample: the token `"ops_" + "a"*96` (total length 100)
starts with the prefix, meets the 100-character total-length minimum and
uses only allowed characters, yet `validate_token_format` rejects it with a
non-empty error list (the full-pattern check wants 100 characters after the
prefix). -/
theorem validate_token_format_len100_counterexample :
    CLIIntegration.hasOpsPrefix CLIIntegration.tokenLen100.data = true ∧
      100 ≤ CLIIntegration.tokenLen100.data.length ∧
      CLIIntegration.tokenLen100.data.all CLIIntegration.allowedChar = true ∧
      (CLIIntegration.validate_token_format CLIIntegration.tokenLen100).is_valid = false ∧
      (CLIIntegration.validate_token_format CLIIntegration.tokenLen100).errors ≠ [] := by
  decide

/-- C1 (amended): a token passes `validate_token_format` with no errors iff
the prefix, charset and the full pattern's 104-character total length hold
(not the 100-character per-check minimum); each violated rule flips its
per-check flag and contributes an error naming that check; and
`"ops_" + "a"*50` fails with the length check specifically flagged. -/
theorem validate_token_format_checks :
    (∀ t : String, CLIIntegration.hasOpsPrefix t.data = true →
        t.data.all CLIIntegration.allowedChar = true →
        104 ≤ t.data.length →
        (CLIIntegration.validate_token_format t).is_valid = true ∧
          (CLIIntegration.validate_token_format t).errors = []) ∧
      (∀ t : String, CLIIntegration.hasOpsPrefix t.data = false →
        (CLIIntegration.validate_token_format t).prefix_ok = false ∧
          CLIIntegration.prefixErr ∈ (CLIIntegration.validate_token_format t).errors) ∧
      (∀ t : String, t.data.length < 100 →
        (CLIIntegration.validate_token_format t).length_ok = false ∧
          CLIIntegration.lengthErr t.data.length ∈
            (CLIIntegration.validate_token_format t).errors) ∧
      (∀ t : String, t.data ≠ [] →
        t.data.all CLIIntegration.allowedChar = false →
        (CLIIntegration.validate_token_format t).charset_ok = false ∧
          ∃ i c, CLIIntegration.firstInvalid t.data 0 = some (i, c) ∧
            CLIIntegration.charsetErr i c ∈
              (CLIIntegration.validate_token_format t).errors) ∧
      ((CLIIntegration.validate_token_format CLIIntegration.tokenLen54).length_ok = false ∧
        CLIIntegration.lengthErr 54 ∈
          (CLIIntegration.validate_token_format CLIIntegration.tokenLen54).errors) := by
  refine ⟨?_, ?_, ?_, ?_, by decide⟩
  · intro t hpre hall hlen
    obtain ⟨rest, hsh⟩ := CLIIntegration.hasOpsPrefix_shape _ hpre
    have hallr : rest.all CLIIntegration.allowedChar = true := by
      rw [hsh] at hall
      simp only [List.all_cons, Bool.and_eq_true] at hall
      exact hall.2.2.2.2
    have hlenr : CLIIntegration.MIN_TOKEN_LENGTH ≤ rest.length := by
      rw [hsh] at hlen
      simp only [List.length_cons] at hlen
      show 100 ≤ rest.length
      omega
    exact CLIIntegration.validate_token_format_of_shape t rest hsh hallr hlenr
  · intro t hpre
    constructor
    · simp [CLIIntegration.validate_token_format, hpre]
    · simp [CLIIntegration.validate_token_format, hpre]
  · intro t hlen
    have hlt : t.length < CLIIntegration.MIN_TOKEN_LENGTH := hlen
    have hnle : ¬(CLIIntegration.MIN_TOKEN_LENGTH ≤ t.length) := not_le.mpr hlt
    by_cases he : t.data.isEmpty = true
    · constructor <;> simp [CLIIntegration.validate_token_format, he, hlt, hnle,
        CLIIntegration.charsetErrs]
    · have he' : t.data.isEmpty = false := by revert he; cases t.data.isEmpty <;> simp
      by_cases hp : CLIIntegration.hasOpsPrefix t.data = true <;>
        constructor <;>
          simp [CLIIntegration.validate_token_format, he', hp, hlt, hnle,
            CLIIntegration.charsetErrs]
  · intro t hne hall
    have hneb : t.data.isEmpty = false := by
      cases ht : t.data with
      | nil => exact absurd ht hne
      | cons a l => rfl
    have hfi := CLIIntegration.firstInvalid_isSome_of_not_all t.data 0 hall
    obtain ⟨⟨i, c⟩, hic⟩ := Option.isSome_iff_exists.mp hfi
    refine ⟨?_, i, c, hic, ?_⟩
    · simp [CLIIntegration.validate_token_format, CLIIntegration.charsetOk, hneb, hic]
    · by_cases hp : (!t.data.isEmpty && CLIIntegration.hasOpsPrefix t.data) = true <;>
      by_cases hl : (!t.data.isEmpty &&
          decide (CLIIntegration.MIN_TOKEN_LENGTH ≤ t.data.length)) = true <;>
        simp [CLIIntegration.validate_token_format, CLIIntegration.charsetErrs,
          hneb, hic, hp, hl]

/-- C1 witness: the amended theorem applied to tokens exercising the valid
case and each per-check failure. -/
theorem validate_token_format_checks_witness :
    ((CLIIntegration.validate_token_format CLIIntegration.tokenMin).is_valid = true ∧
      (CLIIntegration.validate_token_format CLIIntegration.tokenMin).errors = []) ∧
      (CLIIntegration.validate_token_format "xps_wrong").prefix_ok = false ∧
      (CLIIntegration.validate_token_format "ops_short").length_ok = false ∧
      (CLIIntegration.validate_token_format "ops_!!").charset_ok = false := by
  refine ⟨validate_token_format_checks.1 CLIIntegration.tokenMin
      (by decide) (by decide) (by decide),
    (validate_token_format_checks.2.1 "xps_wrong" (by decide)).1,
    (validate_token_format_checks.2.2.1 "ops_short" (by decide)).1,
    (validate_token_format_checks.2.2.2.1 "ops_!!" (by decide) (by decide)).1⟩

/-- C2: when writing the updated profile content fails, `save_token_to_env`
restores the original content from the just-created backup, and returns a
failure result carrying the original write error (and the backup path), so
the profile file ends with exactly its pre-call content. -/
theorem save_token_to_env_write_failure_restores (token v c : String)
    (env : CLIIntegration.SaveEnv)
    (hval : (CLIIntegration.validate_token_format token).is_valid = true)
    (hinit : env.initZshrc = some c)
    (hbk : env.backupWriteFails = false)
    (hrd : env.readFails = false)
    (hwf : env.writeFails = true)
    (hrs : env.restoreFails = false) :
    (CLIIntegration.save_token_to_env token v env).zshrc = some c ∧
      (CLIIntegration.save_token_to_env token v env).result.success = false ∧
      (CLIIntegration.save_token_to_env token v env).result.error_message =
        some ("Failed to write .zshrc: " ++ env.writeErr) ∧
      (CLIIntegration.save_token_to_env token v env).backup = some c := by
  refine ⟨?_, ?_, ?_, ?_⟩ <;>
    simp [CLIIntegration.save_token_to_env, CLIIntegration.saveAfterBackup,
      hval, hinit, hbk, hrd, hwf, hrs]

/-- C2 witness: a concrete failing write over an existing profile file. -/
theorem save_token_to_env_write_failure_restores_witness :
    (CLIIntegration.save_token_to_env CLIIntegration.tokenMin
        "OP_SERVICE_ACCOUNT_TOKEN" CLIIntegration.envWriteFails).zshrc =
      some "# my zshrc\n" ∧
    (CLIIntegration.save_token_to_env CLIIntegration.tokenMin
        "OP_SERVICE_ACCOUNT_TOKEN" CLIIntegration.envWriteFails).result.success = false := by
  have h := save_token_to_env_write_failure_restores CLIIntegration.tokenMin
    "OP_SERVICE_ACCOUNT_TOKEN" "# my zshrc\n" CLIIntegration.envWriteFails
    (by decide) rfl rfl rfl rfl rfl
  exact ⟨h.1, h.2.1⟩

/-- C3 counterexample: when the profile file does not exist,
`save_token_to_env` succeeds while creating no backup at all (the file is
created fresh and then overwritten with `backup_path = None`). -/
theorem save_token_to_env_missing_file_counterexample :
    (CLIIntegration.save_token_to_env CLIIntegration.tokenMin
        "OP_SERVICE_ACCOUNT_TOKEN" CLIIntegration.envNoFile).result.success = true ∧
      (CLIIntegration.save_token_to_env CLIIntegration.tokenMin
        "OP_SERVICE_ACCOUNT_TOKEN" CLIIntegration.envNoFile).result.backup_path = none ∧
      (CLIIntegration.save_token_to_env CLIIntegration.tokenMin
        "OP_SERVICE_ACCOUNT_TOKEN" CLIIntegration.envNoFile).backup = none ∧
      ((CLIIntegration.save_token_to_env CLIIntegration.tokenMin
        "OP_SERVICE_ACCOUNT_TOKEN" CLIIntegration.envNoFile).ops.all
          fun op => !op.isBackupWrite) = true := by
  decide

/-- C3 (amended): for every successful call over a profile file that existed
before the call, a timestamped backup holding exactly the prior content is
written before the profile file is written. -/
theorem save_token_to_env_backup_before_write (token v c : String)
    (env : CLIIntegration.SaveEnv)
    (hinit : env.initZshrc = some c)
    (hsuc : (CLIIntegration.save_token_to_env token v env).result.success = true) :
    (CLIIntegration.save_token_to_env token v env).ops =
      [CLIIntegration.FileOp.writeBackup c,
        CLIIntegration.FileOp.writeZshrc
          (CLIIntegration.updatedContent c v token env.timestamp)] ∧
      (CLIIntegration.save_token_to_env token v env).backup = some c ∧
      (CLIIntegration.save_token_to_env token v env).result.backup_path =
        some (CLIIntegration.zshrcPath ++ ".backup." ++ env.timestamp) := by
  by_cases hv : (CLIIntegration.validate_token_format token).is_valid = true
  · by_cases hbf : env.backupWriteFails = true
    · simp [CLIIntegration.save_token_to_env, hv, hinit, hbf] at hsuc
    · have hbf' : env.backupWriteFails = false := by
        revert hbf; cases env.backupWriteFails <;> simp
      by_cases hrf : env.readFails = true
      · simp [CLIIntegration.save_token_to_env, CLIIntegration.saveAfterBackup,
          hv, hinit, hbf', hrf] at hsuc
      · have hrf' : env.readFails = false := by
          revert hrf; cases env.readFails <;> simp
        by_cases hwf : env.writeFails = true
        · by_cases hrs : env.restoreFails = true
          · simp [CLIIntegration.save_token_to_env, CLIIntegration.saveAfterBackup,
              hv, hinit, hbf', hrf', hwf, hrs] at hsuc
          · simp [CLIIntegration.save_token_to_env, CLIIntegration.saveAfterBackup,
              hv, hinit, hbf', hrf', hwf, hrs] at hsuc
        · have hwf' : env.writeFails = false := by
            revert hwf; cases env.writeFails <;> simp
          refine ⟨?_, ?_, ?_⟩ <;>
            simp [CLIIntegration.save_token_to_env, CLIIntegration.saveAfterBackup,
              hv, hinit, hbf', hrf', hwf']
  · simp [CLIIntegration.save_token_to_env, hv] at hsuc

/-- C3 witness: the amended theorem on a concrete existing profile file. -/
theorem save_token_to_env_backup_before_write_witness :
    (CLIIntegration.save_token_to_env CLIIntegration.tokenMin
        "OP_SERVICE_ACCOUNT_TOKEN" CLIIntegration.envExisting).backup =
      some "# my zshrc\n" :=
  (save_token_to_env_backup_before_write CLIIntegration.tokenMin
    "OP_SERVICE_ACCOUNT_TOKEN" "# my zshrc\n" CLIIntegration.envExisting
    rfl (by decide)).2.1

/-- C9: once the content write succeeds, `save_token_to_env` returns
`success = true` whatever the read-back verification and the chmod do; a
raising read-back only makes `verified` false, never the success flag. -/
theorem save_token_to_env_success_ignores_verification (token v c : String)
    (env : CLIIntegration.SaveEnv)
    (hval : (CLIIntegration.validate_token_format token).is_valid = true)
    (hinit : env.initZshrc = some c)
    (hbk : env.backupWriteFails = false)
    (hrd : env.readFails = false)
    (hwf : env.writeFails = false) :
    (CLIIntegration.save_token_to_env token v env).result.success = true ∧
      (env.readBackFails = true →
        (CLIIntegration.save_token_to_env token v env).result.verified = false) := by
  constructor
  · simp [CLIIntegration.save_token_to_env, CLIIntegration.saveAfterBackup,
      hval, hinit, hbk, hrd, hwf]
  · intro hrb
    simp [CLIIntegration.save_token_to_env, CLIIntegration.saveAfterBackup,
      hval, hinit, hbk, hrd, hwf, hrb]

/-- C9 witness: read-back verification and chmod both raise, yet the call
reports success with `verified = false`. -/
theorem save_token_to_env_success_ignores_verification_witness :
    (CLIIntegration.save_token_to_env CLIIntegration.tokenMin
        "OP_SERVICE_ACCOUNT_TOKEN" CLIIntegration.envVerifyChmodFail).result.success = true ∧
      (CLIIntegration.save_token_to_env CLIIntegration.tokenMin
        "OP_SERVICE_ACCOUNT_TOKEN" CLIIntegration.envVerifyChmodFail).result.verified = false ∧
      CLIIntegration.envVerifyChmodFail.chmodFails = true := by
  have h := save_token_to_env_success_ignores_verification CLIIntegration.tokenMin
    "OP_SERVICE_ACCOUNT_TOKEN" "# my zshrc\n" CLIIntegration.envVerifyChmodFail
    (by decide) rfl rfl rfl rfl
  exact ⟨h.1, h.2 rfl, rfl⟩

/-- C4 counterexample: an exception whose message contains "invalid" but
also contains "timeout" is classified as a retryable timeout strategy with
3 attempts, not as non-retryable with 0 attempts. -/
theorem get_retry_strategy_invalid_timeout_counterexample :
    strContains (pyLower (DecisionEngine.PyError.mk false false
        "invalid selector after timeout").text) "invalid" = true ∧
      (DecisionEngine.get_retry_strategy
        ⟨false, false, "invalid selector after timeout"⟩).retryable = true ∧
      (DecisionEngine.get_retry_strategy
        ⟨false, false, "invalid selector after timeout"⟩).max_attempts = 3 := by
  decide

/-- C4 (amended): an exception that is not a TimeoutError / ConnectionError /
OSError and whose lowercased message contains neither "timeout" nor
"captcha" is mapped, when the message contains "invalid", "not found" or
"missing", to the non-retryable strategy with zero attempts. -/
theorem get_retry_strategy_non_retryable (e : DecisionEngine.PyError)
    (ht : e.isTimeoutError = false)
    (hc : e.isConnOrOSError = false)
    (hto : strContains (pyLower e.text) "timeout" = false)
    (hcap : strContains (pyLower e.text) "captcha" = false)
    (hm : strContains (pyLower e.text) "invalid" = true ∨
      strContains (pyLower e.text) "not found" = true ∨
      strContains (pyLower e.text) "missing" = true) :
    (DecisionEngine.get_retry_strategy e).retryable = false ∧
      (DecisionEngine.get_retry_strategy e).max_attempts = 0 := by
  constructor <;>
    · simp only [DecisionEngine.get_retry_strategy, ht, hc, hto, hcap]
      rcases hm with h | h | h <;> simp [h]

/-- C4 witness: the amended theorem at the message "invalid selector". -/
theorem get_retry_strategy_non_retryable_witness :
    (DecisionEngine.get_retry_strategy ⟨false, false, "invalid selector"⟩).retryable = false ∧
      (DecisionEngine.get_retry_strategy ⟨false, false, "invalid selector"⟩).max_attempts = 0 :=
  get_retry_strategy_non_retryable ⟨false, false, "invalid selector"⟩
    rfl rfl (by decide) (by decide) (Or.inl (by decide))

namespace IntegrationOrch

/-! ### Lemmas about the orchestration trace -/

theorem orchestrateFrom_cleanupRuns (fails : OrchestrationState → Bool)
    (steps trace : List OrchestrationState) :
    (orchestrateFrom fails steps trace).cleanupRuns = 1 := by
  induction steps generalizing trace with
  | nil => rfl
  | cons s rest ih =>
    rw [orchestrateFrom]
    by_cases hf : fails s = true
    · simp [hf]
    · have hf' : fails s = false := by revert hf; cases fails s <;> simp
      simp [hf', ih]

theorem orchestrateFrom_failure (fails : OrchestrationState → Bool)
    (steps trace : List OrchestrationState)
    (hnc : OrchestrationState.CLEANUP ∉ steps)
    (htr : trace.count OrchestrationState.CLEANUP = 0)
    (hex : ∃ s ∈ steps, fails s = true) :
    (orchestrateFrom fails steps trace).success = false ∧
      (orchestrateFrom fails steps trace).final_state = OrchestrationState.ERROR ∧
      (orchestrateFrom fails steps trace).state_transitions.getLast? =
        some OrchestrationState.ERROR ∧
      (orchestrateFrom fails steps trace).state_transitions.count
        OrchestrationState.CLEANUP = 0 := by
  induction steps generalizing trace with
  | nil => simp at hex
  | cons s rest ih =>
    have hs : ¬(OrchestrationState.CLEANUP = s) := fun h => hnc (h ▸ List.mem_cons_self s rest)
    have hnc' : OrchestrationState.CLEANUP ∉ rest := fun h => hnc (List.mem_cons_of_mem _ h)
    have htr' : (trace ++ [s]).count OrchestrationState.CLEANUP = 0 := by
      simp [List.count_append, htr, List.count_cons, hs]
    rw [orchestrateFrom]
    by_cases hf : fails s = true
    · refine ⟨by simp [hf], by simp [hf], ?_, ?_⟩
      · have hlast : (trace ++ [s] ++ [OrchestrationState.ERROR]).getLast? =
            some OrchestrationState.ERROR := List.getLast?_concat _
        simp only [hf, if_true]
        simp only [List.append_assoc] at hlast ⊢
        exact hlast
      · simp only [hf, if_true]
        simp [List.count_append, List.count_cons, htr, hs]
    · have hf' : fails s = false := by revert hf; cases fails s <;> simp
      have hex' : ∃ x ∈ rest, fails x = true := by
        obtain ⟨x, hx, hfx⟩ := hex
        rcases List.mem_cons.mp hx with h | h
        · subst h; rw [hf'] at hfx; exact absurd hfx (by simp)
        · exact ⟨x, h, hfx⟩
      simp only [hf', Bool.false_eq_true, if_false]
      exact ih (trace ++ [s]) hnc' htr' hex'

theorem orchestrateFrom_success (fails : OrchestrationState → Bool)
    (steps trace : List OrchestrationState)
    (hall : ∀ s ∈ steps, fails s = false) :
    orchestrateFrom fails steps trace =
      { state_transitions := trace ++ steps ++ [.CLEANUP, .COMPLETE]
        final_state := .COMPLETE, success := true, cleanupRuns := 1 } := by
  induction steps generalizing trace with
  | nil => simp [orchestrateFrom]
  | cons s rest ih =>
    have hf := hall s (List.mem_cons_self s rest)
    rw [orchestrateFrom]
    simp only [hf, Bool.false_eq_true, if_false]
    rw [ih (trace ++ [s]) fun x hx => hall x (List.mem_cons_of_mem _ hx)]
    simp

end IntegrationOrch

/-- C5 counterexample: a fatal error in the first workflow step drives the
run to ERROR without ever entering the CLEANUP state — the transition list
is exactly `[CHECK_AUTH, ERROR]` (the cleanup routine still runs once). -/
theorem orchestrate_cleanup_not_entered_counterexample :
    (IntegrationOrch.orchestrate fun s =>
        s == IntegrationOrch.OrchestrationState.CHECK_AUTH).state_transitions =
      [IntegrationOrch.OrchestrationState.CHECK_AUTH,
        IntegrationOrch.OrchestrationState.ERROR] ∧
      (IntegrationOrch.orchestrate fun s =>
        s == IntegrationOrch.OrchestrationState.CHECK_AUTH).state_transitions.count
          IntegrationOrch.OrchestrationState.CLEANUP = 0 ∧
      (IntegrationOrch.orchestrate fun s =>
        s == IntegrationOrch.OrchestrationState.CHECK_AUTH).success = false ∧
      (IntegrationOrch.orchestrate fun s =>
        s == IntegrationOrch.OrchestrationState.CHECK_AUTH).cleanupRuns = 1 := by
  decide

/-- C5 (amended): a fatal error in any workflow step always ends the run in
the ERROR state, and the cleanup routine runs exactly once on every path;
the CLEANUP state itself, however, is entered exactly once only on the
success path and never on the failure path. -/
theorem orchestrate_error_and_cleanup (fails : IntegrationOrch.OrchestrationState → Bool) :
    (IntegrationOrch.orchestrate fails).cleanupRuns = 1 ∧
      ((∃ s ∈ IntegrationOrch.workflowSteps, fails s = true) →
        (IntegrationOrch.orchestrate fails).success = false ∧
          (IntegrationOrch.orchestrate fails).final_state =
            IntegrationOrch.OrchestrationState.ERROR ∧
          (IntegrationOrch.orchestrate fails).state_transitions.getLast? =
            some IntegrationOrch.OrchestrationState.ERROR ∧
          (IntegrationOrch.orchestrate fails).state_transitions.count
            IntegrationOrch.OrchestrationState.CLEANUP = 0) ∧
      ((∀ s ∈ IntegrationOrch.workflowSteps, fails s = false) →
        (IntegrationOrch.orchestrate fails).success = true ∧
          (IntegrationOrch.orchestrate fails).state_transitions =
            IntegrationOrch.workflowSteps ++
              [IntegrationOrch.OrchestrationState.CLEANUP,
                IntegrationOrch.OrchestrationState.COMPLETE] ∧
          (IntegrationOrch.orchestrate fails).state_transitions.count
            IntegrationOrch.OrchestrationState.CLEANUP = 1) := by
  refine ⟨IntegrationOrch.orchestrateFrom_cleanupRuns fails _ [], ?_, ?_⟩
  · intro hex
    exact IntegrationOrch.orchestrateFrom_failure fails
      IntegrationOrch.workflowSteps [] (by decide) rfl hex
  · intro hall
    have h := IntegrationOrch.orchestrateFrom_success fails
      IntegrationOrch.workflowSteps [] hall
    unfold IntegrationOrch.orchestrate
    rw [h]
    refine ⟨rfl, by simp, by decide⟩

/-- C5 witness: the amended theorem on a clean run and on a run failing at
NAVIGATE. -/
theorem orchestrate_error_and_cleanup_witness :
    (IntegrationOrch.orchestrate fun _ => false).success = true ∧
      (IntegrationOrch.orchestrate fun s =>
        s == IntegrationOrch.OrchestrationState.NAVIGATE).final_state =
          IntegrationOrch.OrchestrationState.ERROR := by
  constructor
  · exact ((orchestrate_error_and_cleanup fun _ => false).2.2 fun s _ => rfl).1
  · exact ((orchestrate_error_and_cleanup fun s =>
      s == IntegrationOrch.OrchestrationState.NAVIGATE).2.1
        ⟨IntegrationOrch.OrchestrationState.NAVIGATE, by decide, by decide⟩).2.1

namespace BrowserAutomation

/-! ### Lemmas about the extraction fallbacks -/

theorem extract_token_via_cssAux_valid (page : BPage) (sels : List String) (t : String)
    (h : (extract_token_via_cssAux page sels).1 = some t) :
    validate_token_format t = true := by
  induction sels with
  | nil => simp [extract_token_via_cssAux] at h
  | cons sel rest ih =>
    rw [extract_token_via_cssAux] at h
    rcases hc : page.cssText sel with _ | txt
    · rw [hc] at h; exact ih h
    · rw [hc] at h
      by_cases hv : validate_token_format (pyStrip txt) = true
      · simp [hv] at h; rw [← h]; exact hv
      · simp [hv] at h; exact ih h

theorem extract_token_via_clipboardAux_valid (page : BPage) (sels : List String)
    (t : String) (h : (extract_token_via_clipboardAux page sels).1 = some t) :
    validate_token_format t = true := by
  induction sels with
  | nil => simp [extract_token_via_clipboardAux] at h
  | cons sel rest ih =>
    rw [extract_token_via_clipboardAux] at h
    by_cases hb : page.copyBtn sel = true
    · rw [if_pos hb] at h
      rcases hc : page.clipboard with _ | txt
      · rw [hc] at h; exact ih h
      · rw [hc] at h
        by_cases hv : validate_token_format txt = true
        · simp [hv] at h; rw [← h]; exact hv
        · simp [hv] at h; exact ih h
    · rw [if_neg hb] at h
      exact ih h

theorem extract_token_via_page_text_valid (page : BPage) (t : String)
    (h : (extract_token_via_page_text page).1 = some t) :
    validate_token_format t = true := by
  unfold extract_token_via_page_text at h
  rcases hb : page.bodyText with _ | txt
  · rw [hb] at h; simp at h
  · rw [hb] at h
    dsimp only at h
    rcases hs : searchTokenCapped txt.data with _ | m
    · rw [hs] at h; simp at h
    · rw [hs] at h
      by_cases hv : validate_token_format (String.mk m) = true
      · simp [hv] at h; rw [← h]; exact hv
      · simp [hv] at h

end BrowserAutomation

/-- C6 counterexample: a page can fail all three methods along the silent
paths of the source (CSS lookups absent, copy buttons present but the
clipboard holding no valid token, no token in the body text): the entire
printed output is the single fixed line "ERROR: All token extraction
methods failed" — no digit, and so no count of the methods attempted,
appears anywhere in the output. -/
theorem extract_token_no_count_counterexample :
    BrowserAutomation.extract_token BrowserAutomation.failPage =
      Except.ok (none, ["ERROR: All token extraction methods failed"]) ∧
      (["ERROR: All token extraction methods failed"].all
        fun m => m.data.all fun c => !c.isDigit) = true :=
  ⟨rfl, by decide⟩

/-- C6 (amended): `extract_token` tries CSS lookup, then clipboard, then
page-text scan, in that order, stopping at the first method whose result
passes the module\'s `validate_token_format`; when all three fail it logs a
fixed failure message (with no count of the methods attempted), attempts a
debugging screenshot, and returns `None` — unless the screenshot call
itself raises, in which case the exception propagates. -/
theorem extract_token_order_first_valid (page : BrowserAutomation.BPage) :
    (∀ t, (BrowserAutomation.extract_token_via_css page).1 = some t →
        BrowserAutomation.extract_token page =
          Except.ok (some t, (BrowserAutomation.extract_token_via_css page).2)) ∧
      (∀ t, (BrowserAutomation.extract_token_via_css page).1 = none →
        (BrowserAutomation.extract_token_via_clipboard page).1 = some t →
        BrowserAutomation.extract_token page =
          Except.ok (some t, (BrowserAutomation.extract_token_via_css page).2 ++
            (BrowserAutomation.extract_token_via_clipboard page).2)) ∧
      (∀ t, (BrowserAutomation.extract_token_via_css page).1 = none →
        (BrowserAutomation.extract_token_via_clipboard page).1 = none →
        (BrowserAutomation.extract_token_via_page_text page).1 = some t →
        BrowserAutomation.extract_token page =
          Except.ok (some t, (BrowserAutomation.extract_token_via_css page).2 ++
            (BrowserAutomation.extract_token_via_clipboard page).2 ++
            (BrowserAutomation.extract_token_via_page_text page).2)) ∧
      (∀ t lg, BrowserAutomation.extract_token page = Except.ok (some t, lg) →
        BrowserAutomation.validate_token_format t = true) ∧
      ((BrowserAutomation.extract_token_via_css page).1 = none →
        (BrowserAutomation.extract_token_via_clipboard page).1 = none →
        (BrowserAutomation.extract_token_via_page_text page).1 = none →
        (page.screenshotFails = false →
          BrowserAutomation.extract_token page =
            Except.ok (none, (BrowserAutomation.extract_token_via_css page).2 ++
              (BrowserAutomation.extract_token_via_clipboard page).2 ++
              (BrowserAutomation.extract_token_via_page_text page).2 ++
              ["ERROR: All token extraction methods failed"])) ∧
        (page.screenshotFails = true →
          BrowserAutomation.extract_token page =
            Except.error ((BrowserAutomation.extract_token_via_css page).2 ++
              (BrowserAutomation.extract_token_via_clipboard page).2 ++
              (BrowserAutomation.extract_token_via_page_text page).2 ++
              ["ERROR: All token extraction methods failed"]))) := by
  refine ⟨?_, ?_, ?_, ?_, ?_⟩
  · intro t h
    simp [BrowserAutomation.extract_token, h]
  · intro t h1 h2
    simp [BrowserAutomation.extract_token, h1, h2]
  · intro t h1 h2 h3
    simp [BrowserAutomation.extract_token, h1, h2, h3]
  · intro t lg ht
    rcases hc : (BrowserAutomation.extract_token_via_css page).1 with _ | t1
    · rcases hb : (BrowserAutomation.extract_token_via_clipboard page).1 with _ | t2
      · rcases hp : (BrowserAutomation.extract_token_via_page_text page).1 with _ | t3
        · by_cases hs : page.screenshotFails = true <;>
            simp [BrowserAutomation.extract_token, hc, hb, hp, hs] at ht
        · simp [BrowserAutomation.extract_token, hc, hb, hp] at ht
          obtain ⟨rfl, -⟩ := ht
          exact BrowserAutomation.extract_token_via_page_text_valid page t3 hp
      · simp [BrowserAutomation.extract_token, hc, hb] at ht
        obtain ⟨rfl, -⟩ := ht
        exact BrowserAutomation.extract_token_via_clipboardAux_valid page _ t2 hb
    · simp [BrowserAutomation.extract_token, hc] at ht
      obtain ⟨rfl, -⟩ := ht
      exact BrowserAutomation.extract_token_via_cssAux_valid page _ t1 hc
  · intro hc hb hp
    constructor <;> intro hs <;>
      simp [BrowserAutomation.extract_token, hc, hb, hp, hs]

/-- C6 witness: the amended theorem on a page exposing a token via CSS and
on a page where every method fails silently (screenshot succeeding). -/
theorem extract_token_order_first_valid_witness :
    BrowserAutomation.validate_token_format CLIIntegration.tokenMin = true ∧
      BrowserAutomation.extract_token BrowserAutomation.failPage =
        Except.ok (none, ["ERROR: All token extraction methods failed"]) := by
  constructor
  · exact (extract_token_order_first_valid BrowserAutomation.okPage).2.2.2.1
      CLIIntegration.tokenMin _ rfl
  · exact ((extract_token_order_first_valid BrowserAutomation.failPage).2.2.2.2
      rfl rfl rfl).1 rfl

/-- C7 counterexample: after a failed action with a non-retryable error
("invalid ..."), `decide` does not return a terminal RETRY action — the
retry rule yields nothing and the engine falls through to navigation,
returning a NAVIGATE action. -/
theorem decide_non_retryable_counterexample :
    DecisionEngine.evaluate_result
        (DecisionEngine.PyVal.dict [("success", DecisionEngine.PyLeaf.bool false)]) = false ∧
      (DecisionEngine.get_retry_strategy
        ⟨false, false, "invalid selector: not found"⟩).retryable = false ∧
      DecisionEngine.maybe_retry DecisionEngine.nonRetryableCtx = none ∧
      (DecisionEngine.decide DecisionEngine.nonRetryableCtx).action_type =
        DecisionEngine.ActionType.NAVIGATE := by
  decide

/-- C7 (amended): on a failed last result the engine consults the retry
strategy of the last error; a non-retryable strategy suppresses the retry
rule entirely (`_maybe_retry` returns nothing and the other rules take
over); an exhausted budget yields a RETRY action with reason
"retry_exhausted"; an available budget yields a RETRY action with reason
"last_result_failed" carrying the strategy; and whenever the retry rule
fires, `decide` returns exactly its action. -/
theorem decide_retry_behavior (ctx : DecisionEngine.DecisionContext)
    (r : DecisionEngine.PyVal) (e : DecisionEngine.PyError)
    (hres : ctx.last_result = some r)
    (hfail : DecisionEngine.evaluate_result r = false)
    (herr : ctx.last_error = some e) :
    ((DecisionEngine.get_retry_strategy e).retryable = false →
        DecisionEngine.maybe_retry ctx = none) ∧
      ((DecisionEngine.get_retry_strategy e).retryable = true →
        (DecisionEngine.get_retry_strategy e).should_retry ctx.retry_count = false →
        DecisionEngine.maybe_retry ctx = some
          { action_type := .RETRY, reason := "retry_exhausted"
            description := "Retry limit reached for last error"
            confidence := 0.2
            metadata := { strategy := some (some (DecisionEngine.get_retry_strategy e)) } }) ∧
      ((DecisionEngine.get_retry_strategy e).should_retry ctx.retry_count = true →
        DecisionEngine.maybe_retry ctx = some
          { action_type := .RETRY, reason := "last_result_failed"
            description := "Last action failed; retrying"
            confidence := 0.5
            metadata := { strategy := some (some (DecisionEngine.get_retry_strategy e)) } }) ∧
      (∀ a, DecisionEngine.maybe_retry ctx = some a → DecisionEngine.decide ctx = a) := by
  refine ⟨?_, ?_, ?_, ?_⟩
  · intro h
    simp [DecisionEngine.maybe_retry, hres, hfail, herr, h]
  · intro h1 h2
    simp [DecisionEngine.maybe_retry, hres, hfail, herr, h1, h2]
  · intro h2
    have h1 : (DecisionEngine.get_retry_strategy e).retryable = true := by
      have h := h2
      simp [DecisionEngine.RetryStrategy.should_retry, Bool.and_eq_true] at h
      exact h.1
    simp [DecisionEngine.maybe_retry, hres, hfail, herr, h1, h2]
  · intro a ha
    simp [DecisionEngine.decide, DecisionEngine.select_action, ha]

/-- C7 witness: the amended theorem on the non-retryable context and on an
exhausted-budget context. -/
theorem decide_retry_behavior_witness :
    DecisionEngine.maybe_retry DecisionEngine.nonRetryableCtx = none ∧
      (DecisionEngine.decide DecisionEngine.exhaustedCtx).reason = "retry_exhausted" := by
  constructor
  · exact (decide_retry_behavior DecisionEngine.nonRetryableCtx _ _ rfl (by decide) rfl).1
      (by decide)
  · have h := decide_retry_behavior DecisionEngine.exhaustedCtx _ _ rfl (by decide) rfl
    have h2 := h.2.1 (by decide) (by decide)
    rw [h.2.2.2 _ h2]

/-- C8 counterexample: with all four resources held and the page close
raising, `close_session` invokes only the page close call — context,
browser and engine close calls are skipped (their references are merely
nulled by the exception handler). -/
theorem close_session_skips_remaining_counterexample :
    (SessionMgr.close_session ⟨some true, some false, some false, some false⟩).2.1 =
      [SessionMgr.CloseStep.page] ∧
      (SessionMgr.close_session ⟨some true, some false, some false, some false⟩).2.2 = true ∧
      (SessionMgr.SMState.mk (some true) (some false) (some false)
        (some false)).context.isSome = true := by
  decide

/-- C8 (amended): `close_session` is idempotent — it always leaves every
reference nulled, so a second call does nothing and raises nothing — and
the close calls it does invoke follow the order page, context, browser,
engine with any step's failure swallowed; a failing step, however, aborts
the remaining close calls rather than letting them run. -/
theorem close_session_idempotent_ordered (s : SessionMgr.SMState) :
    (SessionMgr.close_session s).1 = SessionMgr.cleared ∧
      SessionMgr.close_session (SessionMgr.close_session s).1 =
        (SessionMgr.cleared, [], false) ∧
      List.Sublist (SessionMgr.close_session s).2.1
        [SessionMgr.CloseStep.page, SessionMgr.CloseStep.context,
          SessionMgr.CloseStep.browser, SessionMgr.CloseStep.playwright] := by
  obtain ⟨p, c, b, pl⟩ := s
  rcases p with - | (- | -) <;> rcases c with - | (- | -) <;>
    rcases b with - | (- | -) <;> rcases pl with - | (- | -) <;> decide
